import Mathlib

/-!
Shallow embedding of the `prtls_oauth` token lifecycle engine
(`src/prtls_oauth/services/base_oauth_service.py` plus the `OAuthToken`
model in `src/prtls_oauth/models/oauth_token.py`).

Modelling choices:
- The database table is a `List TokenRecord`; Django's
  `filter(...).first()` becomes `List.find?` and `update_or_create`
  becomes an explicit replace-or-append keyed on `(user_id, service)`.
- Time is an integer timestamp (`Int`, seconds); `now()` is passed
  explicitly as `timeNow`.
- The single HTTP round trip of each operation is modelled by passing
  the provider's response as an explicit `ProviderResponse` argument;
  each service function also returns the number of network calls it
  performed, so "no network call" is the third component being `0`.
- Python falsiness of an `Optional[str]` (`None` or `""`) is `falsyOpt`;
  for the always-string configuration fields a missing value is `""`
  (the code never distinguishes `None` from `""` for them: both are
  only ever tested for falsiness).
- Every `raise RuntimeError(...)` site gets its own `OAuthError`
  constructor, named after its message; `get_token`'s
  `except Exception` wrapper that re-raises
  `RuntimeError("Failed to get ... token: {e}")` is the constructor
  `OAuthError.failedToGetToken` applied to the inner error.
-/

/-- The persisted `OAuthToken` row (`models/oauth_token.py`).
`refresh_token` is a nullable column, hence `Option String`
(`some ""` is a non-NULL empty string, `none` is SQL NULL). -/
structure TokenRecord where
  user_id : String
  service : String
  access_token : String
  refresh_token : Option String
  expires_at : Int
  token_type : String
  deriving Repr, DecidableEq

/-- The token table: `unique_together ("user_id", "service")` is stated
as the `uniqueKeys` invariant below, enforced by the store. -/
abbrev Store := List TokenRecord

/-- The provider-specific class variables of `OAuthService`
(`OAUTH_CLIENT_ID`, ...). A missing value is the empty string. -/
structure OAuthConfig where
  provider_name : String
  client_id : String
  client_secret : String
  base_url : String
  auth_endpoint : String
  token_endpoint : String
  revoke_endpoint : String
  scope : String
  deriving Repr, DecidableEq

/-- One HTTP response from the provider's token or revoke endpoint:
the status code and the JSON fields the engine reads
(`data.get("access_token")` etc.; `none` = field absent). -/
structure ProviderResponse where
  status : Nat
  access_token : Option String
  expires_in : Option Int
  refresh_token : Option String
  token_type : Option String
  deriving Repr, DecidableEq

/-- Each `raise RuntimeError(...)` site of `base_oauth_service.py`,
named after its message text. -/
inductive OAuthError where
  /-- "OAuth credentials missing in subclass." -/
  | credentialsMissing
  /-- "Authorization code not provided." -/
  | authCodeMissing
  /-- `response.raise_for_status()` raised (4xx/5xx status). -/
  | httpStatusError (status : Nat)
  /-- "Unexpected response format: ..." (missing `access_token` or `expires_in`). -/
  | unexpectedResponseFormat
  /-- "Refresh token missing. Reauthorization required." -/
  | refreshTokenMissing
  /-- "No valid ... token. Please reauthorize." -/
  | reauthorizationRequired
  /-- "OAuth revoke endpoint not defined in subclass." -/
  | revokeEndpointMissing
  /-- "OAUTH_PROVIDER_NAME must be defined in the subclass." -/
  | providerNameMissing
  /-- "SITE_URL setting is not defined." -/
  | siteUrlMissing
  /-- `get_token`'s wrapper: "Failed to get ... token: {e}". -/
  | failedToGetToken (inner : OAuthError)
  deriving Repr, DecidableEq

/-- Python truthiness test `not x` for an `Optional[str]`:
true for `None` and for `""`. -/
def falsyOpt : Option String → Bool
  | none => true
  | some s => s == ""

/-- The `(user_id, service)` key filter used by every ORM query. -/
def keyMatch (user_id service : String) (r : TokenRecord) : Bool :=
  r.user_id == user_id && r.service == service

/-- `OAuthToken.objects.filter(user_id=..., service=...).first()`. -/
def findByKey (store : Store) (user_id service : String) : Option TokenRecord :=
  store.find? (keyMatch user_id service)

/-- Number of rows for a given `(user_id, service)` key. -/
def countByKey (store : Store) (user_id service : String) : Nat :=
  store.countP (keyMatch user_id service)

/-- The store invariant from `unique_together ("user_id", "service")`:
no two rows share a key. -/
def uniqueKeys : Store → Bool
  | [] => true
  | r :: rest => rest.all (fun s => !(keyMatch r.user_id r.service s)) && uniqueKeys rest

/-- `filter(user_id=..., service=..., expires_at__gt=now()).first()`
(first query of `get_token`). -/
def find_valid_token (store : Store) (user_id service : String) (timeNow : Int) :
    Option TokenRecord :=
  store.find? (fun r => keyMatch user_id service r && decide (timeNow < r.expires_at))

/-- `filter(user_id=..., service=..., refresh_token__isnull=False).first()`
(second query of `get_token`; note `some ""` is not NULL, so it matches). -/
def find_refresh_record (store : Store) (user_id service : String) : Option TokenRecord :=
  store.find? (fun r => keyMatch user_id service r && r.refresh_token.isSome)

/-- `requests.Response.raise_for_status` raises exactly for 4xx/5xx. -/
def errorStatus (status : Nat) : Prop := 400 ≤ status ∧ status < 600

instance (status : Nat) : Decidable (errorStatus status) :=
  inferInstanceAs (Decidable (_ ∧ _))

/-- `OAuthService.save_or_update_token` (lines 228-271):
look up the existing row by key, substitute its `refresh_token` when the
argument is falsy, then `update_or_create` with
`expires_at = now() + timedelta(seconds=expires_in - 60)`.
Returns the resulting record and the new store. -/
def save_or_update_token (store : Store) (user_id service access_token : String)
    (refresh_token : Option String) (expires_in : Int) (timeNow : Int)
    (token_type : String) : TokenRecord × Store :=
  let existing_token := findByKey store user_id service
  let refresh_token :=
    match existing_token with
    | some ex => if falsyOpt refresh_token then ex.refresh_token else refresh_token
    | none => refresh_token
  let newRec : TokenRecord :=
    { user_id := user_id
      service := service
      access_token := access_token
      refresh_token := refresh_token
      expires_at := timeNow + (expires_in - 60)
      token_type := token_type }
  match existing_token with
  | some _ =>
      (newRec, store.map (fun r => if keyMatch user_id service r then newRec else r))
  | none => (newRec, store ++ [newRec])

/-- `OAuthService.refresh_access_token` (lines 168-206): credential check,
refresh-token presence check, one POST, field validation, then
`save_or_update_token` with `refresh_token=None`. The `Nat` counts
network calls made. -/
def refresh_access_token (cfg : OAuthConfig) (token : TokenRecord)
    (resp : ProviderResponse) (timeNow : Int) (store : Store) :
    Except OAuthError TokenRecord × Store × Nat :=
  if cfg.client_id == "" || cfg.client_secret == "" then
    (.error .credentialsMissing, store, 0)
  else if falsyOpt token.refresh_token then
    (.error .refreshTokenMissing, store, 0)
  else if errorStatus resp.status then
    (.error (.httpStatusError resp.status), store, 1)
  else
    match resp.access_token, resp.expires_in with
    | some a_tok, some exp_in =>
        let res := save_or_update_token store token.user_id cfg.provider_name
          a_tok none exp_in timeNow "Bearer"
        (.ok res.1, res.2, 1)
    | none, _ => (.error .unexpectedResponseFormat, store, 1)
    | some _, none => (.error .unexpectedResponseFormat, store, 1)

/-- `OAuthService.get_token` (lines 36-84): return a still-valid token
without any network call, else refresh via the first row having a
non-NULL refresh token, else raise the reauthorize error; every raise
inside the `try` is wrapped by the `except` into
`RuntimeError("Failed to get ... token: {e}")`, i.e. `failedToGetToken`. -/
def get_token (cfg : OAuthConfig) (user_id : String) (resp : ProviderResponse)
    (timeNow : Int) (store : Store) : Except OAuthError String × Store × Nat :=
  match find_valid_token store user_id cfg.provider_name timeNow with
  | some token => (.ok token.access_token, store, 0)
  | none =>
    match find_refresh_record store user_id cfg.provider_name with
    | some token =>
        match refresh_access_token cfg token resp timeNow store with
        | (.ok refreshed, store2, n) =>
            if refreshed.access_token == "" then
              (.error (.failedToGetToken .reauthorizationRequired), store2, n)
            else
              (.ok refreshed.access_token, store2, n)
        | (.error e, store2, n) => (.error (.failedToGetToken e), store2, n)
    | none => (.error (.failedToGetToken .reauthorizationRequired), store, 0)

/-- `OAuthService.get_redirect_uri` (lines 273-301) on the request-less
path: needs `OAUTH_PROVIDER_NAME` and the `SITE_URL` setting. -/
def get_redirect_uri (cfg : OAuthConfig) (site_url : String) : Except OAuthError String :=
  if cfg.provider_name == "" then .error .providerNameMissing
  else if site_url == "" then .error .siteUrlMissing
  else .ok (site_url ++ "/" ++ cfg.provider_name ++ "/callback/")

/-- `OAuthService.exchange_authorization_code` (lines 114-166):
credential check, code check, redirect-URI construction, one POST,
`raise_for_status`, field validation, then `save_or_update_token` with
the response's optional `refresh_token` and
`token_type = data.get("token_type", "Bearer")`. -/
def exchange_authorization_code (cfg : OAuthConfig) (code : String) (user_id : String)
    (site_url : String) (resp : ProviderResponse) (timeNow : Int) (store : Store) :
    Except OAuthError TokenRecord × Store × Nat :=
  if cfg.client_id == "" || cfg.client_secret == "" || cfg.token_endpoint == "" then
    (.error .credentialsMissing, store, 0)
  else if code == "" then
    (.error .authCodeMissing, store, 0)
  else
    match get_redirect_uri cfg site_url with
    | .error e => (.error e, store, 0)
    | .ok _ =>
        if errorStatus resp.status then
          (.error (.httpStatusError resp.status), store, 1)
        else
          match resp.access_token, resp.expires_in with
          | some a_tok, some exp_in =>
              let token_type := resp.token_type.getD "Bearer"
              let res := save_or_update_token store user_id cfg.provider_name
                a_tok resp.refresh_token exp_in timeNow token_type
              (.ok res.1, res.2, 1)
          | none, _ => (.error .unexpectedResponseFormat, store, 1)
          | some _, none => (.error .unexpectedResponseFormat, store, 1)

/-- `OAuthService.revoke_token` (lines 208-226): raise if no revoke
endpoint, otherwise POST and only log the outcome ("OAuth token revoked
successfully." on 200, "Failed to revoke token: ..." otherwise); the
Python function returns `None` either way. The `List String` holds the
log messages; the store is not read or written by the method. -/
def revoke_token (cfg : OAuthConfig) (access_token : String) (resp : ProviderResponse)
    (store : Store) : Except OAuthError Unit × List String × Store :=
  if cfg.revoke_endpoint == "" then
    (.error .revokeEndpointMissing, [], store)
  else if resp.status == 200 then
    (.ok (), ["OAuth token revoked successfully."], store)
  else
    (.ok (), ["Failed to revoke token"], store)

-- Sanity checks of the embedding on concrete inputs (removed later or kept as examples).
example :
    (save_or_update_token [] "u" "g" "AT" (some "RT") 3600 1000 "Bearer").1.expires_at
      = 4540 := by decide

example :
    (save_or_update_token [] "u" "g" "AT" none 0 1000 "Bearer").1.expires_at
      = 940 := by decide

example :
    get_token { provider_name := "g", client_id := "i", client_secret := "s",
                base_url := "b", auth_endpoint := "a", token_endpoint := "t",
                revoke_endpoint := "r", scope := "sc" }
      "u" ⟨200, some "AT2", some 3600, none, none⟩ 0
      [⟨"u", "g", "AT", some "RT", 100, "Bearer"⟩]
      = (.ok "AT", [⟨"u", "g", "AT", some "RT", 100, "Bearer"⟩], 0) := rfl

/-! ### Store lemmas -/

theorem keyMatch_iff {u s : String} {r : TokenRecord} :
    keyMatch u s r = true ↔ r.user_id = u ∧ r.service = s := by
  simp [keyMatch]

theorem uniqueKeys_cons {r : TokenRecord} {rest : Store}
    (h : uniqueKeys (r :: rest) = true) :
    (∀ x ∈ rest, keyMatch r.user_id r.service x = false) ∧ uniqueKeys rest = true := by
  simp only [uniqueKeys, Bool.and_eq_true, List.all_eq_true, Bool.not_eq_true'] at h
  exact h

theorem find?_none_of_all_false {p : TokenRecord → Bool} {store : Store}
    (h : ∀ r ∈ store, p r = false) : store.find? p = none := by
  induction store with
  | nil => rfl
  | cons r rest ih =>
      have hr : ¬ p r = true := by simp [h r (List.mem_cons_self _ _)]
      rw [List.find?_cons_of_neg _ hr]
      exact ih (fun x hx => h x (List.mem_cons_of_mem _ hx))

theorem eq_of_mem_unique {store : Store} {t r : TokenRecord}
    (hu : uniqueKeys store = true) (ht : t ∈ store) (hr : r ∈ store)
    (hk : r.user_id = t.user_id ∧ r.service = t.service) : r = t := by
  induction store with
  | nil => cases ht
  | cons x rest ih =>
      obtain ⟨hall, hrest⟩ := uniqueKeys_cons hu
      rcases List.mem_cons.mp ht with rfl | ht' <;>
        rcases List.mem_cons.mp hr with hrx | hr'
      · exact hrx
      · exact absurd (keyMatch_iff.mpr hk) (by simp [hall r hr'])
      · subst hrx
        exact absurd (keyMatch_iff.mpr ⟨hk.1.symm, hk.2.symm⟩) (by simp [hall t ht'])
      · exact ih hrest ht' hr'

theorem find?_eq_of_unique {p : TokenRecord → Bool} {store : Store} {t : TokenRecord}
    (hu : uniqueKeys store = true) (hmem : t ∈ store) (hpt : p t = true)
    (hkey : ∀ r, p r = true → keyMatch t.user_id t.service r = true) :
    store.find? p = some t := by
  induction store with
  | nil => cases hmem
  | cons r rest ih =>
      obtain ⟨hall, hrest⟩ := uniqueKeys_cons hu
      rcases List.mem_cons.mp hmem with rfl | hmem'
      · exact List.find?_cons_of_pos _ hpt
      · have hpr : ¬ p r = true := by
          intro hc
          have hk := keyMatch_iff.mp (hkey r hc)
          have := hall t hmem'
          rw [keyMatch_iff.mpr ⟨hk.1.symm, hk.2.symm⟩] at this
          cases this
        rw [List.find?_cons_of_neg _ hpr]
        exact ih hrest hmem'

theorem find?_append_none {p : TokenRecord → Bool} {l₁ l₂ : Store}
    (h : l₁.find? p = none) : (l₁ ++ l₂).find? p = l₂.find? p := by
  induction l₁ with
  | nil => rfl
  | cons r rest ih =>
      have hr : ¬ p r = true := by
        intro hc
        rw [List.find?_cons_of_pos _ hc] at h
        cases h
      rw [List.find?_cons_of_neg _ hr] at h
      rw [List.cons_append, List.find?_cons_of_neg _ hr]
      exact ih h

theorem find?_map_replace {u s : String} {newRec : TokenRecord} {store : Store}
    (hnew : keyMatch u s newRec = true)
    (hsome : store.find? (keyMatch u s) ≠ none) :
    (store.map (fun r => if keyMatch u s r then newRec else r)).find? (keyMatch u s)
      = some newRec := by
  induction store with
  | nil => exact absurd rfl hsome
  | cons r rest ih =>
      by_cases hr : keyMatch u s r = true
      · simp only [List.map_cons, if_pos hr]
        exact List.find?_cons_of_pos _ hnew
      · rw [List.find?_cons_of_neg _ hr] at hsome
        simp only [List.map_cons, if_neg hr]
        rw [List.find?_cons_of_neg _ hr]
        exact ih hsome

theorem countP_map_replace {u s : String} {newRec : TokenRecord} {store : Store}
    (hnew : keyMatch u s newRec = true) :
    (store.map (fun r => if keyMatch u s r then newRec else r)).countP (keyMatch u s)
      = store.countP (keyMatch u s) := by
  rw [List.countP_map]
  apply List.countP_congr
  intro r _
  by_cases hr : keyMatch u s r = true <;> simp [Function.comp, hr, hnew]

/-! ### `save_or_update_token` lemmas -/

/-- The record returned by `save_or_update_token`: all fields come from
the arguments, except that a falsy `refresh_token` argument is replaced
by the existing row's `refresh_token` when such a row exists. -/
theorem save_or_update_token_fst (store : Store) (u s a_tok : String)
    (rt : Option String) (e timeNow : Int) (ttype : String) :
    (save_or_update_token store u s a_tok rt e timeNow ttype).1 =
      { user_id := u, service := s, access_token := a_tok,
        refresh_token :=
          match findByKey store u s with
          | some ex => if falsyOpt rt then ex.refresh_token else rt
          | none => rt,
        expires_at := timeNow + (e - 60), token_type := ttype } := by
  unfold save_or_update_token
  cases h : findByKey store u s <;> simp [h]

theorem keyMatch_save_fst (store : Store) (u s a_tok : String)
    (rt : Option String) (e timeNow : Int) (ttype : String) :
    keyMatch u s (save_or_update_token store u s a_tok rt e timeNow ttype).1 = true := by
  rw [save_or_update_token_fst]
  exact keyMatch_iff.mpr ⟨rfl, rfl⟩

/-- After `save_or_update_token`, the lookup by `(user_id, service)`
returns exactly the record the call returned. -/
theorem findByKey_save_or_update_token (store : Store) (u s a_tok : String)
    (rt : Option String) (e timeNow : Int) (ttype : String) :
    findByKey (save_or_update_token store u s a_tok rt e timeNow ttype).2 u s
      = some (save_or_update_token store u s a_tok rt e timeNow ttype).1 := by
  unfold save_or_update_token
  cases h : findByKey store u s with
  | none =>
      simp only [h]
      unfold findByKey at h ⊢
      rw [find?_append_none h]
      exact List.find?_cons_of_pos _ (keyMatch_iff.mpr ⟨rfl, rfl⟩)
  | some ex =>
      simp only [h]
      unfold findByKey at h ⊢
      exact find?_map_replace (keyMatch_iff.mpr ⟨rfl, rfl⟩)
        (by rw [h]; exact fun hc => Option.noConfusion hc)

/-- Upserting a key that is not yet present leaves exactly one row for it. -/
theorem countByKey_save_new (store : Store) (u s a_tok : String)
    (rt : Option String) (e timeNow : Int) (ttype : String)
    (h : findByKey store u s = none) :
    countByKey (save_or_update_token store u s a_tok rt e timeNow ttype).2 u s = 1 := by
  unfold save_or_update_token
  simp only [h]
  unfold countByKey
  unfold findByKey at h
  rw [List.countP_append, List.countP_eq_zero.mpr (List.find?_eq_none.mp h)]
  simp [List.countP_cons, keyMatch]

/-- Upserting an already-present key does not change the number of rows
for that key. -/
theorem countByKey_save_existing (store : Store) (u s a_tok : String)
    (rt : Option String) (e timeNow : Int) (ttype : String) (ex : TokenRecord)
    (h : findByKey store u s = some ex) :
    countByKey (save_or_update_token store u s a_tok rt e timeNow ttype).2 u s
      = countByKey store u s := by
  unfold save_or_update_token
  simp only [h]
  unfold countByKey
  exact countP_map_replace (keyMatch_iff.mpr ⟨rfl, rfl⟩)

/-! ### Claim theorems -/

/-- C3 counterexample: an upsert at time 1000 with `expires_in = 0`
stores `expires_at = 940`, strictly earlier than the time of the write,
so the claimed floor at `now` does not exist in the code. -/
theorem save_expires_at_in_past :
    (save_or_update_token [] "u" "g" "AT" none 0 1000 "Bearer").2 =
      [{ user_id := "u", service := "g", access_token := "AT", refresh_token := none,
         expires_at := 940, token_type := "Bearer" }] ∧ (940 : Int) < 1000 :=
  ⟨rfl, by decide⟩

/-- C3 (amended): for every call, the stored record's `expires_at` is
exactly `now + (expires_in − 60)` — the 60-second safety margin is
applied, but there is no floor at `now`, so the stored `expires_at` can
lie in the past whenever `expires_in < 60`. -/
theorem save_expires_at_margin (store : Store) (u s a_tok : String)
    (rt : Option String) (e timeNow : Int) (ttype : String) :
    (save_or_update_token store u s a_tok rt e timeNow ttype).1.expires_at
        = timeNow + (e - 60) ∧
    findByKey (save_or_update_token store u s a_tok rt e timeNow ttype).2 u s
        = some (save_or_update_token store u s a_tok rt e timeNow ttype).1 := by
  refine ⟨?_, findByKey_save_or_update_token store u s a_tok rt e timeNow ttype⟩
  rw [save_or_update_token_fst]

/-- C2 counterexample: after a first write with `refresh_token = "R1"`,
a second write whose `refresh_token` argument is the NON-null empty
string also keeps `"R1"` instead of storing `""` — the second write's
fields are not applied verbatim even though its `refresh_token` is not
null, so the claim's exception clause is too narrow. -/
theorem upsert_twice_empty_string_refresh :
    (save_or_update_token
        (save_or_update_token [] "u" "g" "A1" (some "R1") 3600 0 "Bearer").2
        "u" "g" "A2" (some "") 3600 0 "Bearer").1.refresh_token = some "R1" ∧
      (some "R1" : Option String) ≠ some "" :=
  ⟨rfl, by decide⟩

/-- C2 (amended): upserting the same `(user_id, service)` twice yields
exactly one stored record whose fields are those of the second write,
except that when the second write's `refresh_token` is null OR the
empty string (Python falsiness), the stored record retains the first
write's `refresh_token`. -/
theorem upsert_twice_unique (store : Store) (u s a₁ a₂ : String)
    (rt₁ rt₂ : Option String) (e₁ e₂ n₁ n₂ : Int) (tt₁ tt₂ : String)
    (h0 : findByKey store u s = none) :
    countByKey (save_or_update_token
        (save_or_update_token store u s a₁ rt₁ e₁ n₁ tt₁).2
        u s a₂ rt₂ e₂ n₂ tt₂).2 u s = 1 ∧
    findByKey (save_or_update_token
        (save_or_update_token store u s a₁ rt₁ e₁ n₁ tt₁).2
        u s a₂ rt₂ e₂ n₂ tt₂).2 u s
      = some (save_or_update_token
          (save_or_update_token store u s a₁ rt₁ e₁ n₁ tt₁).2
          u s a₂ rt₂ e₂ n₂ tt₂).1 ∧
    (save_or_update_token
        (save_or_update_token store u s a₁ rt₁ e₁ n₁ tt₁).2
        u s a₂ rt₂ e₂ n₂ tt₂).1 =
      { user_id := u, service := s, access_token := a₂,
        refresh_token := if falsyOpt rt₂ then rt₁ else rt₂,
        expires_at := n₂ + (e₂ - 60), token_type := tt₂ } := by
  have h1 := findByKey_save_or_update_token store u s a₁ rt₁ e₁ n₁ tt₁
  have hrec₁ := save_or_update_token_fst store u s a₁ rt₁ e₁ n₁ tt₁
  rw [hrec₁, h0] at h1
  refine ⟨?_, findByKey_save_or_update_token _ u s a₂ rt₂ e₂ n₂ tt₂, ?_⟩
  · rw [countByKey_save_existing _ u s a₂ rt₂ e₂ n₂ tt₂ _ h1]
    exact countByKey_save_new store u s a₁ rt₁ e₁ n₁ tt₁ h0
  · rw [save_or_update_token_fst, h1]

/-- C9: the preservation rule fires on any falsy `refresh_token`
argument: writing with the empty string over an existing record whose
`refresh_token` is non-null keeps the existing value. -/
theorem upsert_empty_string_preserves_refresh (store : Store) (u s a_tok : String)
    (e timeNow : Int) (ttype : String) (t : TokenRecord) (rv : String)
    (hu : uniqueKeys store = true) (hmem : t ∈ store)
    (hku : t.user_id = u) (hks : t.service = s)
    (hrt : t.refresh_token = some rv) :
    (save_or_update_token store u s a_tok (some "") e timeNow ttype).1.refresh_token
      = some rv := by
  have hfind : findByKey store u s = some t := by
    unfold findByKey
    refine find?_eq_of_unique hu hmem (keyMatch_iff.mpr ⟨hku, hks⟩) ?_
    intro r hr
    rw [hku, hks]
    exact hr
  rw [save_or_update_token_fst]
  simp [hfind, falsyOpt, hrt]

/-- C9 witness: concrete instance of the empty-string preservation. -/
theorem upsert_empty_string_preserves_refresh_witness :
    (save_or_update_token [⟨"u", "g", "A0", some "R1", 100, "Bearer"⟩]
        "u" "g" "A1" (some "") 3600 200 "Bearer").1.refresh_token = some "R1" :=
  upsert_empty_string_preserves_refresh
    [⟨"u", "g", "A0", some "R1", 100, "Bearer"⟩] "u" "g" "A1" 3600 200 "Bearer"
    ⟨"u", "g", "A0", some "R1", 100, "Bearer"⟩ "R1"
    (by decide) (by decide) rfl rfl rfl

/-- C2 witness: concrete instance of the double-upsert description. -/
theorem upsert_twice_unique_witness :
    countByKey (save_or_update_token
        (save_or_update_token [] "u" "g" "A1" (some "R1") 3600 0 "Bearer").2
        "u" "g" "A2" none 7200 50 "Bearer").2 "u" "g" = 1 ∧
    findByKey (save_or_update_token
        (save_or_update_token [] "u" "g" "A1" (some "R1") 3600 0 "Bearer").2
        "u" "g" "A2" none 7200 50 "Bearer").2 "u" "g"
      = some (save_or_update_token
          (save_or_update_token [] "u" "g" "A1" (some "R1") 3600 0 "Bearer").2
          "u" "g" "A2" none 7200 50 "Bearer").1 ∧
    (save_or_update_token
        (save_or_update_token [] "u" "g" "A1" (some "R1") 3600 0 "Bearer").2
        "u" "g" "A2" none 7200 50 "Bearer").1 =
      { user_id := "u", service := "g", access_token := "A2",
        refresh_token := if falsyOpt none then some "R1" else none,
        expires_at := 50 + (7200 - 60), token_type := "Bearer" } :=
  upsert_twice_unique [] "u" "g" "A1" "A2" (some "R1") none 3600 7200 0 50
    "Bearer" "Bearer" rfl

/-- C1: when the stored record for `(user_id, service)` has
`expires_at` strictly greater than the current time, `get_token`
returns that record's `access_token`, returns the store unchanged, and
makes zero network calls. -/
theorem get_token_valid_no_network (cfg : OAuthConfig) (uid : String)
    (resp : ProviderResponse) (timeNow : Int) (store : Store) (t : TokenRecord)
    (hu : uniqueKeys store = true) (hmem : t ∈ store)
    (hku : t.user_id = uid) (hks : t.service = cfg.provider_name)
    (hexp : timeNow < t.expires_at) :
    get_token cfg uid resp timeNow store = (.ok t.access_token, store, 0) := by
  have hfind : find_valid_token store uid cfg.provider_name timeNow = some t := by
    unfold find_valid_token
    refine find?_eq_of_unique hu hmem ?_ ?_
    · simp [keyMatch, hku, hks, hexp]
    · intro r hr
      rw [hku, hks]
      exact ((Bool.and_eq_true _ _).mp hr).1
  unfold get_token
  rw [hfind]

/-- C1 witness: a concrete store with one still-valid record. -/
theorem get_token_valid_no_network_witness :
    get_token ⟨"g", "i", "sec", "b", "a", "t", "r", "sc"⟩ "u"
        ⟨200, some "AT2", some 3600, none, none⟩ 0
        [⟨"u", "g", "AT", some "RT", 100, "Bearer"⟩]
      = (.ok "AT", [⟨"u", "g", "AT", some "RT", 100, "Bearer"⟩], 0) :=
  get_token_valid_no_network ⟨"g", "i", "sec", "b", "a", "t", "r", "sc"⟩ "u"
    ⟨200, some "AT2", some 3600, none, none⟩ 0
    [⟨"u", "g", "AT", some "RT", 100, "Bearer"⟩]
    ⟨"u", "g", "AT", some "RT", 100, "Bearer"⟩
    (by decide) (by decide) rfl rfl (by decide)

/-- C4: a successful refresh of a stored record with a non-null
`refresh_token` stores the provider's new `access_token` while keeping
the pre-refresh `refresh_token`: `refresh_access_token` passes `none`
to `save_or_update_token`, whose preservation rule substitutes the
existing row's value. -/
theorem refresh_preserves_refresh_token (cfg : OAuthConfig)
    (resp : ProviderResponse) (timeNow : Int) (store : Store) (t : TokenRecord)
    (rv a_tok : String) (exp_in : Int)
    (hcid : cfg.client_id ≠ "") (hcs : cfg.client_secret ≠ "")
    (hu : uniqueKeys store = true) (hmem : t ∈ store)
    (hks : t.service = cfg.provider_name)
    (hrt : t.refresh_token = some rv) (hrv : rv ≠ "")
    (hstatus : ¬ errorStatus resp.status)
    (hat : resp.access_token = some a_tok) (hei : resp.expires_in = some exp_in) :
    refresh_access_token cfg t resp timeNow store =
      (.ok { user_id := t.user_id, service := cfg.provider_name,
             access_token := a_tok, refresh_token := some rv,
             expires_at := timeNow + (exp_in - 60), token_type := "Bearer" },
       (save_or_update_token store t.user_id cfg.provider_name a_tok none
          exp_in timeNow "Bearer").2, 1) ∧
    findByKey (refresh_access_token cfg t resp timeNow store).2.1
        t.user_id cfg.provider_name
      = some { user_id := t.user_id, service := cfg.provider_name,
               access_token := a_tok, refresh_token := some rv,
               expires_at := timeNow + (exp_in - 60), token_type := "Bearer" } := by
  have hfind : findByKey store t.user_id cfg.provider_name = some t := by
    unfold findByKey
    refine find?_eq_of_unique hu hmem (keyMatch_iff.mpr ⟨rfl, hks⟩) ?_
    intro r hr
    rw [hks]
    exact hr
  have hfst : (save_or_update_token store t.user_id cfg.provider_name a_tok none
      exp_in timeNow "Bearer").1 =
      { user_id := t.user_id, service := cfg.provider_name, access_token := a_tok,
        refresh_token := some rv, expires_at := timeNow + (exp_in - 60),
        token_type := "Bearer" } := by
    rw [save_or_update_token_fst]
    simp [hfind, falsyOpt, hrt]
  have hrun : refresh_access_token cfg t resp timeNow store =
      (.ok (save_or_update_token store t.user_id cfg.provider_name a_tok none
          exp_in timeNow "Bearer").1,
       (save_or_update_token store t.user_id cfg.provider_name a_tok none
          exp_in timeNow "Bearer").2, 1) := by
    unfold refresh_access_token
    rw [if_neg (by simp [hcid, hcs]), if_neg (by simp [falsyOpt, hrt, hrv]),
      if_neg hstatus, hat, hei]
  constructor
  · rw [hrun, hfst]
  · rw [hrun]
    have := findByKey_save_or_update_token store t.user_id cfg.provider_name a_tok
      none exp_in timeNow "Bearer"
    rw [hfst] at this
    exact this

/-- C4 witness: a concrete expired record is refreshed; the provider
omits `refresh_token` and the stored record keeps `"RT1"`. -/
theorem refresh_preserves_refresh_token_witness :
    refresh_access_token ⟨"g", "i", "sec", "b", "a", "t", "r", "sc"⟩
        ⟨"u", "g", "AT1", some "RT1", 100, "Bearer"⟩
        ⟨200, some "AT2", some 3600, none, none⟩ 1000
        [⟨"u", "g", "AT1", some "RT1", 100, "Bearer"⟩] =
      (.ok { user_id := "u", service := "g", access_token := "AT2",
             refresh_token := some "RT1", expires_at := 1000 + (3600 - 60),
             token_type := "Bearer" },
       (save_or_update_token [⟨"u", "g", "AT1", some "RT1", 100, "Bearer"⟩]
          "u" "g" "AT2" none 3600 1000 "Bearer").2, 1) ∧
    findByKey (refresh_access_token ⟨"g", "i", "sec", "b", "a", "t", "r", "sc"⟩
        ⟨"u", "g", "AT1", some "RT1", 100, "Bearer"⟩
        ⟨200, some "AT2", some 3600, none, none⟩ 1000
        [⟨"u", "g", "AT1", some "RT1", 100, "Bearer"⟩]).2.1 "u" "g"
      = some { user_id := "u", service := "g", access_token := "AT2",
               refresh_token := some "RT1", expires_at := 1000 + (3600 - 60),
               token_type := "Bearer" } :=
  refresh_preserves_refresh_token ⟨"g", "i", "sec", "b", "a", "t", "r", "sc"⟩
    ⟨200, some "AT2", some 3600, none, none⟩ 1000
    [⟨"u", "g", "AT1", some "RT1", 100, "Bearer"⟩]
    ⟨"u", "g", "AT1", some "RT1", 100, "Bearer"⟩ "RT1" "AT2" 3600
    (by decide) (by decide) (by decide) (by decide) rfl rfl (by decide)
    (by decide) rfl rfl

/-- C6: with no stored record for `(user_id, service)` at all,
`get_token` raises the reauthorize error (wrapped, like every failure,
in the generic "Failed to get ... token" `RuntimeError`), leaves the
store unchanged and makes no network call. -/
theorem get_token_no_record_reauth (cfg : OAuthConfig) (uid : String)
    (resp : ProviderResponse) (timeNow : Int) (store : Store)
    (hnone : ∀ r ∈ store, ¬(r.user_id = uid ∧ r.service = cfg.provider_name)) :
    get_token cfg uid resp timeNow store
      = (.error (.failedToGetToken .reauthorizationRequired), store, 0) := by
  have hkm : ∀ r ∈ store, keyMatch uid cfg.provider_name r = false := by
    intro r hr
    cases hk : keyMatch uid cfg.provider_name r
    · rfl
    · exact absurd (keyMatch_iff.mp hk) (hnone r hr)
  have h1 : find_valid_token store uid cfg.provider_name timeNow = none := by
    unfold find_valid_token
    exact find?_none_of_all_false (fun r hr => by simp [hkm r hr])
  have h2 : find_refresh_record store uid cfg.provider_name = none := by
    unfold find_refresh_record
    exact find?_none_of_all_false (fun r hr => by simp [hkm r hr])
  unfold get_token
  rw [h1, h2]

/-- C6 witness: a store holding only another user's record. -/
theorem get_token_no_record_reauth_witness :
    get_token ⟨"g", "i", "sec", "b", "a", "t", "r", "sc"⟩ "u"
        ⟨200, none, none, none, none⟩ 0
        [⟨"v", "g", "X", some "R", 5000, "Bearer"⟩]
      = (.error (.failedToGetToken .reauthorizationRequired),
         [⟨"v", "g", "X", some "R", 5000, "Bearer"⟩], 0) :=
  get_token_no_record_reauth ⟨"g", "i", "sec", "b", "a", "t", "r", "sc"⟩ "u"
    ⟨200, none, none, none, none⟩ 0
    [⟨"v", "g", "X", some "R", 5000, "Bearer"⟩] (by decide)

/-- C5 counterexample: expired record with refresh token `"RT1"`,
provider answers 500 to the refresh — `get_token` fails with the
wrapped HTTP status error, not with the reauthorize error of step 3. -/
theorem get_token_refresh_failure_not_reauth :
    (get_token ⟨"g", "i", "sec", "b", "a", "t", "r", "sc"⟩ "u"
        ⟨500, none, none, none, none⟩ 1000
        [⟨"u", "g", "AT1", some "RT1", 100, "Bearer"⟩]).1
      = .error (.failedToGetToken (.httpStatusError 500)) ∧
    OAuthError.failedToGetToken (.httpStatusError 500)
      ≠ OAuthError.failedToGetToken .reauthorizationRequired ∧
    OAuthError.failedToGetToken (.httpStatusError 500)
      ≠ OAuthError.reauthorizationRequired :=
  ⟨rfl, by decide, by decide⟩

/-- Every failure of `refresh_access_token` — missing credentials,
falsy refresh token, HTTP error status, or a response missing
`access_token`/`expires_in` — returns the store unchanged, and its
error is never the reauthorize error (that raise site is in
`get_token`, not in `refresh_access_token`). -/
theorem refresh_error_cases (cfg : OAuthConfig) (t : TokenRecord)
    (resp : ProviderResponse) (timeNow : Int) (store store2 : Store)
    (err : OAuthError) (n : Nat)
    (hfail : refresh_access_token cfg t resp timeNow store = (.error err, store2, n)) :
    store2 = store ∧ err ≠ OAuthError.reauthorizationRequired := by
  unfold refresh_access_token at hfail
  split at hfail
  · simp only [Prod.mk.injEq, Except.error.injEq] at hfail
    obtain ⟨he, hs, -⟩ := hfail
    subst he
    exact ⟨hs.symm, by simp⟩
  · split at hfail
    · simp only [Prod.mk.injEq, Except.error.injEq] at hfail
      obtain ⟨he, hs, -⟩ := hfail
      subst he
      exact ⟨hs.symm, by simp⟩
    · split at hfail
      · simp only [Prod.mk.injEq, Except.error.injEq] at hfail
        obtain ⟨he, hs, -⟩ := hfail
        subst he
        exact ⟨hs.symm, by simp⟩
      · split at hfail
        · simp at hfail
        · simp only [Prod.mk.injEq, Except.error.injEq] at hfail
          obtain ⟨he, hs, -⟩ := hfail
          subst he
          exact ⟨hs.symm, by simp⟩
        · simp only [Prod.mk.injEq, Except.error.injEq] at hfail
          obtain ⟨he, hs, -⟩ := hfail
          subst he
          exact ⟨hs.symm, by simp⟩

/-- C5 (amended): when the stored token is expired, the record's
refresh token is non-null, and the refresh attempt fails — for ANY
reason (missing credentials, empty-string refresh token, HTTP error
status, or a 2xx response missing `access_token`/`expires_in`) —
`get_token` neither returns the stale token nor succeeds: the refresh
error `err` propagates out wrapped as `failedToGetToken err`, the store
is unchanged, and the inner error is never the reauthorize error of
step 3. -/
theorem get_token_refresh_failure_wrapped (cfg : OAuthConfig) (uid : String)
    (resp : ProviderResponse) (timeNow : Int) (store store2 : Store)
    (t : TokenRecord) (err : OAuthError) (n : Nat)
    (hu : uniqueKeys store = true) (hmem : t ∈ store)
    (hku : t.user_id = uid) (hks : t.service = cfg.provider_name)
    (hexp : ¬ timeNow < t.expires_at)
    (hrt : t.refresh_token.isSome = true)
    (hfail : refresh_access_token cfg t resp timeNow store = (.error err, store2, n)) :
    get_token cfg uid resp timeNow store
      = (.error (.failedToGetToken err), store, n) ∧
    store2 = store ∧ err ≠ OAuthError.reauthorizationRequired := by
  obtain ⟨hstore, hne⟩ :=
    refresh_error_cases cfg t resp timeNow store store2 err n hfail
  rw [hstore] at hfail
  have h1 : find_valid_token store uid cfg.provider_name timeNow = none := by
    unfold find_valid_token
    apply find?_none_of_all_false
    intro r hr
    by_cases hk : keyMatch uid cfg.provider_name r = true
    · have hkeq := keyMatch_iff.mp hk
      have hreq : r = t :=
        eq_of_mem_unique hu hmem hr ⟨hkeq.1.trans hku.symm, hkeq.2.trans hks.symm⟩
      subst hreq
      simp [decide_eq_false hexp]
    · rw [Bool.not_eq_true] at hk
      simp [hk]
  have h2 : find_refresh_record store uid cfg.provider_name = some t := by
    unfold find_refresh_record
    refine find?_eq_of_unique hu hmem ?_ ?_
    · simp [keyMatch_iff.mpr ⟨hku, hks⟩, hrt]
    · intro r hr
      rw [hku, hks]
      exact ((Bool.and_eq_true _ _).mp hr).1
  refine ⟨?_, hstore, hne⟩
  unfold get_token
  simp only [h1, h2, hfail]

/-- C5 witness: a concrete refresh-failure run (HTTP 500) of the
amended claim. -/
theorem get_token_refresh_failure_wrapped_witness :
    get_token ⟨"g", "i", "sec", "b", "a", "t", "r", "sc"⟩ "u"
        ⟨500, none, none, none, none⟩ 1000
        [⟨"u", "g", "AT1", some "RT1", 100, "Bearer"⟩]
      = (.error (.failedToGetToken (.httpStatusError 500)),
         [⟨"u", "g", "AT1", some "RT1", 100, "Bearer"⟩], 1) ∧
    ([⟨"u", "g", "AT1", some "RT1", 100, "Bearer"⟩] : Store)
      = [⟨"u", "g", "AT1", some "RT1", 100, "Bearer"⟩] ∧
    OAuthError.httpStatusError 500 ≠ OAuthError.reauthorizationRequired :=
  get_token_refresh_failure_wrapped ⟨"g", "i", "sec", "b", "a", "t", "r", "sc"⟩ "u"
    ⟨500, none, none, none, none⟩ 1000
    [⟨"u", "g", "AT1", some "RT1", 100, "Bearer"⟩]
    [⟨"u", "g", "AT1", some "RT1", 100, "Bearer"⟩]
    ⟨"u", "g", "AT1", some "RT1", 100, "Bearer"⟩
    (OAuthError.httpStatusError 500) 1
    (by decide) (by decide) rfl rfl (by decide) rfl rfl

/-- C10: every failure of `get_token` — the reauthorize condition
included — reaches the caller wrapped in the single generic
`failedToGetToken` error (`RuntimeError("Failed to get ... token: {e}")`),
so the inner error categories are not distinguishable by type. -/
theorem get_token_errors_all_wrapped (cfg : OAuthConfig) (uid : String)
    (resp : ProviderResponse) (timeNow : Int) (store : Store) (e : OAuthError)
    (h : (get_token cfg uid resp timeNow store).1 = .error e) :
    ∃ inner, e = OAuthError.failedToGetToken inner := by
  unfold get_token at h
  cases h1 : find_valid_token store uid cfg.provider_name timeNow with
  | some t =>
      rw [h1] at h
      simp at h
  | none =>
      rw [h1] at h
      cases h2 : find_refresh_record store uid cfg.provider_name with
      | none =>
          rw [h2] at h
          simp only [Except.error.injEq] at h
          exact ⟨_, h.symm⟩
      | some t =>
          simp only [h2] at h
          rcases h3 : refresh_access_token cfg t resp timeNow store with ⟨res, store2, n⟩
          simp only [h3] at h
          cases res with
          | ok refreshed =>
              by_cases hempty : (refreshed.access_token == "") = true
              · simp only [hempty, if_true, Except.error.injEq] at h
                exact ⟨_, h.symm⟩
              · simp only [hempty, if_false] at h
                simp at h
          | error err =>
              simp only [Except.error.injEq] at h
              exact ⟨_, h.symm⟩

/-- C10 witness: on an empty store the error is the wrapped
reauthorize error. -/
theorem get_token_errors_all_wrapped_witness :
    ∃ inner, OAuthError.failedToGetToken OAuthError.reauthorizationRequired
      = OAuthError.failedToGetToken inner :=
  get_token_errors_all_wrapped ⟨"g", "i", "sec", "b", "a", "t", "r", "sc"⟩ "u"
    ⟨200, none, none, none, none⟩ 0 []
    (OAuthError.failedToGetToken OAuthError.reauthorizationRequired) rfl

/-- C7: `exchange_authorization_code` fails with the configuration
error when client id, client secret or token endpoint is missing, with
the invalid-request error when the code is empty, with a
provider-response error (HTTP status or missing fields) otherwise — and
in every one of these failure cases the store is returned unchanged
(the upsert happens only after the full response is validated). -/
theorem exchange_authorization_code_failures (cfg : OAuthConfig)
    (code uid site_url : String) (resp : ProviderResponse) (timeNow : Int)
    (store : Store) :
    (cfg.client_id = "" ∨ cfg.client_secret = "" ∨ cfg.token_endpoint = "" →
      exchange_authorization_code cfg code uid site_url resp timeNow store
        = (.error .credentialsMissing, store, 0)) ∧
    (cfg.client_id ≠ "" → cfg.client_secret ≠ "" → cfg.token_endpoint ≠ "" →
      code = "" →
      exchange_authorization_code cfg code uid site_url resp timeNow store
        = (.error .authCodeMissing, store, 0)) ∧
    (cfg.client_id ≠ "" → cfg.client_secret ≠ "" → cfg.token_endpoint ≠ "" →
      code ≠ "" → cfg.provider_name ≠ "" → site_url ≠ "" →
      errorStatus resp.status →
      exchange_authorization_code cfg code uid site_url resp timeNow store
        = (.error (.httpStatusError resp.status), store, 1)) ∧
    (cfg.client_id ≠ "" → cfg.client_secret ≠ "" → cfg.token_endpoint ≠ "" →
      code ≠ "" → cfg.provider_name ≠ "" → site_url ≠ "" →
      ¬ errorStatus resp.status →
      resp.access_token = none ∨ resp.expires_in = none →
      exchange_authorization_code cfg code uid site_url resp timeNow store
        = (.error .unexpectedResponseFormat, store, 1)) := by
  refine ⟨?_, ?_, ?_, ?_⟩
  · intro h
    unfold exchange_authorization_code
    rw [if_pos (by rcases h with h | h | h <;> simp [h])]
  · intro h1 h2 h3 hcode
    unfold exchange_authorization_code
    rw [if_neg (by simp [h1, h2, h3]), if_pos (by simp [hcode])]
  · intro h1 h2 h3 hcode hpn hsu hstatus
    have hred : get_redirect_uri cfg site_url
        = .ok (site_url ++ "/" ++ cfg.provider_name ++ "/callback/") := by
      unfold get_redirect_uri
      rw [if_neg (by simp [hpn]), if_neg (by simp [hsu])]
    unfold exchange_authorization_code
    rw [if_neg (by simp [h1, h2, h3]), if_neg (by simp [hcode])]
    simp only [hred]
    rw [if_pos hstatus]
  · intro h1 h2 h3 hcode hpn hsu hstatus hmiss
    have hred : get_redirect_uri cfg site_url
        = .ok (site_url ++ "/" ++ cfg.provider_name ++ "/callback/") := by
      unfold get_redirect_uri
      rw [if_neg (by simp [hpn]), if_neg (by simp [hsu])]
    unfold exchange_authorization_code
    rw [if_neg (by simp [h1, h2, h3]), if_neg (by simp [hcode])]
    simp only [hred]
    rw [if_neg hstatus]
    rcases hmiss with hat | hei
    · simp only [hat]
    · cases hat2 : resp.access_token <;> simp [hat2, hei]

/-- C7 witness: one concrete run per failure category. -/
theorem exchange_authorization_code_failures_witness :
    exchange_authorization_code ⟨"g", "", "", "b", "a", "", "r", "sc"⟩ "c" "u" "S"
        ⟨200, some "A", some 3600, none, none⟩ 0 []
      = (.error .credentialsMissing, [], 0) ∧
    exchange_authorization_code ⟨"g", "i", "sec", "b", "a", "t", "r", "sc"⟩ "" "u" "S"
        ⟨200, some "A", some 3600, none, none⟩ 0 []
      = (.error .authCodeMissing, [], 0) ∧
    exchange_authorization_code ⟨"g", "i", "sec", "b", "a", "t", "r", "sc"⟩ "c" "u" "S"
        ⟨500, some "A", some 3600, none, none⟩ 0 []
      = (.error (.httpStatusError 500), [], 1) ∧
    exchange_authorization_code ⟨"g", "i", "sec", "b", "a", "t", "r", "sc"⟩ "c" "u" "S"
        ⟨200, none, some 3600, none, none⟩ 0 []
      = (.error .unexpectedResponseFormat, [], 1) :=
  ⟨(exchange_authorization_code_failures ⟨"g", "", "", "b", "a", "", "r", "sc"⟩
      "c" "u" "S" ⟨200, some "A", some 3600, none, none⟩ 0 []).1 (Or.inl rfl),
   (exchange_authorization_code_failures ⟨"g", "i", "sec", "b", "a", "t", "r", "sc"⟩
      "" "u" "S" ⟨200, some "A", some 3600, none, none⟩ 0 []).2.1
      (by decide) (by decide) (by decide) rfl,
   (exchange_authorization_code_failures ⟨"g", "i", "sec", "b", "a", "t", "r", "sc"⟩
      "c" "u" "S" ⟨500, some "A", some 3600, none, none⟩ 0 []).2.2.1
      (by decide) (by decide) (by decide) (by decide) (by decide) (by decide)
      (by decide),
   (exchange_authorization_code_failures ⟨"g", "i", "sec", "b", "a", "t", "r", "sc"⟩
      "c" "u" "S" ⟨200, none, some 3600, none, none⟩ 0 []).2.2.2
      (by decide) (by decide) (by decide) (by decide) (by decide) (by decide)
      (by decide) (Or.inl rfl)⟩

/-- C8 counterexample: with a revoke endpoint configured, the value
`revoke_token` returns to its caller is identical for a 200 and a 500
provider response — there is no success/failure signal in the return;
the outcome is only reported in the log, which does differ. -/
theorem revoke_token_no_signal :
    (revoke_token ⟨"g", "i", "sec", "b", "a", "t", "rev", "sc"⟩ "T"
        ⟨200, none, none, none, none⟩ []).1
      = (revoke_token ⟨"g", "i", "sec", "b", "a", "t", "rev", "sc"⟩ "T"
        ⟨500, none, none, none, none⟩ []).1 ∧
    (revoke_token ⟨"g", "i", "sec", "b", "a", "t", "rev", "sc"⟩ "T"
        ⟨200, none, none, none, none⟩ []).2.1
      ≠ (revoke_token ⟨"g", "i", "sec", "b", "a", "t", "rev", "sc"⟩ "T"
        ⟨500, none, none, none, none⟩ []).2.1 :=
  ⟨rfl, by decide⟩

/-- C8 (amended): `revoke_token` fails with the configuration error
when no revoke endpoint is configured; with one, it returns plain unit
to the caller whatever the status — logging, not raising, on a non-200
response — and it never reads or writes the token store. -/
theorem revoke_token_spec (cfg : OAuthConfig) (a_tok : String)
    (resp : ProviderResponse) (store : Store) :
    (cfg.revoke_endpoint = "" →
      revoke_token cfg a_tok resp store = (.error .revokeEndpointMissing, [], store)) ∧
    (cfg.revoke_endpoint ≠ "" → resp.status ≠ 200 →
      revoke_token cfg a_tok resp store
        = (.ok (), ["Failed to revoke token"], store)) ∧
    (revoke_token cfg a_tok resp store).2.2 = store := by
  refine ⟨?_, ?_, ?_⟩
  · intro h
    unfold revoke_token
    rw [if_pos (by simp [h])]
  · intro h hs
    unfold revoke_token
    rw [if_neg (by simp [h]), if_neg (by simp [hs])]
  · unfold revoke_token
    split
    · rfl
    · split <;> rfl

/-- C8 witness: the missing-endpoint and the non-200 runs. -/
theorem revoke_token_spec_witness :
    revoke_token ⟨"g", "i", "sec", "b", "a", "t", "", "sc"⟩ "T"
        ⟨200, none, none, none, none⟩ []
      = (.error .revokeEndpointMissing, [], []) ∧
    revoke_token ⟨"g", "i", "sec", "b", "a", "t", "rev", "sc"⟩ "T"
        ⟨500, none, none, none, none⟩ []
      = (.ok (), ["Failed to revoke token"], []) :=
  ⟨(revoke_token_spec ⟨"g", "i", "sec", "b", "a", "t", "", "sc"⟩ "T"
      ⟨200, none, none, none, none⟩ []).1 rfl,
   (revoke_token_spec ⟨"g", "i", "sec", "b", "a", "t", "rev", "sc"⟩ "T"
      ⟨500, none, none, none, none⟩ []).2.1 (by decide) (by decide)⟩
